import Mathlib

/-!
Verification of the weston desktop shell plug-in (src/shell.c).

The development shallowly embeds the shell policy engine:
 * the global layer order (a list of layer identities, spliced by
   `lock` / `resume_desktop` exactly as the wl_list code does),
 * the lock orchestrator and helper supervisor state (`struct wl_shell`),
 * the per-surface role record (`struct shell_surface`) and its role
   transition requests,
 * the resize grab and the rotate grab motion handlers.

External compositor facilities (rendering, damage, repaint scheduling,
process spawning, surface-to-global coordinate transforms) are modelled
only through their observable effect on the shell state; where a value
produced by the compositor is consumed, it enters as a parameter.
-/

namespace Weston

/-! ## wl_list splicing, restricted to the layer-order lists

`wl_list_remove` unlinks an element; `wl_list_insert(p, e)` links `e`
immediately after the position `p`.  On a list of distinct layer
identities these become list operations. -/

def wlListRemove {α : Type} [DecidableEq α] (x : α) (l : List α) : List α :=
  l.filter (fun a => a ≠ x)

def wlListInsertAfter {α : Type} [DecidableEq α] (x y : α) : List α → List α
  | [] => []
  | a :: rest => if a = x then a :: y :: rest else a :: wlListInsertAfter x y rest

/-! ## Layers

`struct wl_shell` owns five layers; the compositor owns the cursor
layer.  The global layer order is the compositor's layer list; a layer
is visible iff its link is on that list. -/

inductive LayerId
  | cursor
  | fullscreen
  | panel
  | toplevel
  | background
  | lock
  deriving DecidableEq, Repr

/-- The global layer order produced by `shell_init`:
`weston_layer_init` links fullscreen after cursor, panel after
fullscreen, toplevel after panel, background after toplevel; the lock
layer's link stays unlinked. -/
def initLayers : List LayerId :=
  [.cursor, .fullscreen, .panel, .toplevel, .background]

/-! ## struct wl_shell

Fields of `struct wl_shell` that the lock orchestrator, the helper
supervisor and the privileged-binding gate read or write.  Clients and
resources are identified by natural numbers; a pid of `0` means "no
process" exactly as in the C code. -/

structure WlShell where
  layers : List LayerId
  locked : Bool
  prepare_event_sent : Bool
  lock_surface : Option Nat
  child_client : Option Nat
  child_desktop_shell : Option Nat
  child_pid : Nat
  deathstamp : Nat
  deathcount : Nat
  screensaver_path : Bool
  screensaver_duration : Nat
  screensaver_binding : Option Nat
  screensaver_pid : Nat
  screensaver_surfaces : List Nat
  idle_time : Nat
  option_idle_time : Nat
  deriving DecidableEq, Repr

/-- `shell_init`: zero-initialised shell, layers spliced into the global
order, screensaver config read, desktop-shell helper launched (its client
handle recorded), deathstamp primed with the current time. -/
def shell_init (starttime : Nat) (path : Bool) (duration : Nat)
    (option_idle : Nat) (helper_client : Nat) : WlShell :=
  { layers := initLayers
    locked := false
    prepare_event_sent := false
    lock_surface := none
    child_client := some helper_client
    child_desktop_shell := none
    child_pid := 1
    deathstamp := starttime
    deathcount := 0
    screensaver_path := path
    screensaver_duration := duration
    screensaver_binding := none
    screensaver_pid := 0
    screensaver_surfaces := []
    idle_time := option_idle
    option_idle_time := option_idle }

/-- `launch_screensaver`: spawn the screensaver helper unless a binding
already exists, no path is configured, or the old process is alive. -/
def launch_screensaver (s : WlShell) : WlShell :=
  if s.screensaver_binding.isSome then s
  else if ¬ s.screensaver_path then s
  else if s.screensaver_pid ≠ 0 then s
  else { s with screensaver_pid := 1 }

/-- `handle_screensaver_sigchld`: the screensaver process was reaped. -/
def handle_screensaver_sigchld (s : WlShell) : WlShell :=
  { s with screensaver_pid := 0 }

/-- The layer splice performed by `resume_desktop`: unlink the lock
layer, then link fullscreen after cursor, panel after fullscreen and
toplevel after panel. -/
def resume_layers_update (l : List LayerId) : List LayerId :=
  wlListInsertAfter .panel .toplevel
    (wlListInsertAfter .fullscreen .panel
      (wlListInsertAfter .cursor .fullscreen
        (wlListRemove .lock l)))

/-- `resume_desktop`: hide the screensaver surfaces (per-surface links
only), send SIGTERM to the screensaver process (no shell state change),
splice the desktop layers back, clear `locked`, restore the configured
idle time, wake and damage everything. -/
def resume_desktop (s : WlShell) : WlShell :=
  { s with
    layers := resume_layers_update s.layers
    locked := false
    idle_time := s.option_idle_time }

/-- The layer splice performed by `lock`: unlink panel, toplevel and
fullscreen, then link the lock layer after cursor. -/
def lock_layers_update (l : List LayerId) : List LayerId :=
  wlListInsertAfter .cursor .lock
    (wlListRemove .fullscreen
      (wlListRemove .toplevel
        (wlListRemove .panel l)))

/-- The `lock` hook of `weston_shell`.  While already locked it only
cycles output DPMS (no shell-state change).  Otherwise it sets `locked`,
hides the desktop layers, links the lock layer in, launches the
screensaver, shows pre-existing screensaver surfaces and, if there are
any, forces the idle time to the screensaver duration. -/
def lock (s : WlShell) : WlShell :=
  if s.locked then s
  else
    let s1 : WlShell :=
      { s with locked := true, layers := lock_layers_update s.layers }
    let s2 := launch_screensaver s1
    if s2.screensaver_surfaces ≠ [] then
      { s2 with idle_time := s2.screensaver_duration }
    else s2

/-- The `unlock` hook of `weston_shell`.  Wakes if never locked or the
lock surface is already up; resumes immediately if the helper's binding
is gone; otherwise sends `prepare_lock_surface` once, gated by
`prepare_event_sent`. -/
def unlock (s : WlShell) : WlShell :=
  if ¬ s.locked ∨ s.lock_surface.isSome then s
  else if s.child_desktop_shell.isNone then resume_desktop s
  else if s.prepare_event_sent then s
  else { s with prepare_event_sent := true }

/-- `desktop_shell_unlock`: the helper's `unlock` request. -/
def desktop_shell_unlock (s : WlShell) : WlShell :=
  let s1 : WlShell := { s with prepare_event_sent := false }
  if s1.locked then resume_desktop s1 else s1

/-- `desktop_shell_set_lock_surface`, projected to the shell state.
`resetOk` stands for the result of `reset_shell_surface_type` on the
offered surface (it fails for lock/screensaver roles). -/
def desktop_shell_set_lock_surface (surf : Nat) (resetOk : Bool)
    (s : WlShell) : WlShell :=
  if ¬ resetOk then s
  else
    let s1 : WlShell := { s with prepare_event_sent := false }
    if ¬ s1.locked then s1
    else { s1 with lock_surface := some surf }

/-- `handle_lock_surface_destroy`: the lock surface went away. -/
def handle_lock_surface_destroy (s : WlShell) : WlShell :=
  { s with lock_surface := none }

/-- `unbind_desktop_shell`: the helper's binding resource is destroyed.
If locked, the desktop is resumed; then the binding reference and the
`prepare_event_sent` gate are cleared. -/
def unbind_desktop_shell (s : WlShell) : WlShell :=
  let s1 := if s.locked then resume_desktop s else s
  { s1 with child_desktop_shell := none, prepare_event_sent := false }

inductive BindOutcome
  | accepted
  | errorDestroyed
  deriving DecidableEq, Repr

/-- `bind_desktop_shell`: only the recorded helper client may bind; any
other client gets a protocol error and the fresh resource is destroyed. -/
def bind_desktop_shell (client : Nat) (s : WlShell) : WlShell × BindOutcome :=
  if s.child_client = some client then
    ({ s with child_desktop_shell := some client }, .accepted)
  else
    (s, .errorDestroyed)

/-- `bind_screensaver`: the first binder wins, whoever it is; a second
binder gets a protocol error and the fresh resource is destroyed. -/
def bind_screensaver (client : Nat) (s : WlShell) : WlShell × BindOutcome :=
  if s.screensaver_binding = none then
    ({ s with screensaver_binding := some client }, .accepted)
  else
    (s, .errorDestroyed)

/-- `unbind_screensaver`. -/
def unbind_screensaver (s : WlShell) : WlShell :=
  { s with screensaver_binding := none }

/-- Unsigned 32-bit subtraction, as computed by `time - deathstamp` on
`uint32_t` operands. -/
def u32sub (a b : Nat) : Nat :=
  (2 ^ 32 + a % 2 ^ 32 - b % 2 ^ 32) % 2 ^ 32

/-- `desktop_shell_sigchld`: the helper died.  Returns the new shell
state and whether the helper was respawned.  `newClient` is the client
handle `weston_client_launch` hands back on a respawn. -/
def desktop_shell_sigchld (time newClient : Nat) (s : WlShell) :
    WlShell × Bool :=
  let s1 : WlShell := { s with child_pid := 0, child_client := none }
  let s2 : WlShell :=
    if u32sub time s1.deathstamp > 30000 then
      { s1 with deathstamp := time % 2 ^ 32, deathcount := 0 }
    else s1
  let s3 : WlShell := { s2 with deathcount := (s2.deathcount + 1) % 2 ^ 32 }
  if s3.deathcount > 5 then (s3, false)
  else ({ s3 with child_client := some newClient, child_pid := 1 }, true)

/-! ## Shell operations and reachability

The shell-level operations the protocol and the compositor can invoke,
as they act on the `wl_shell` state.  `map` and `configure` act on
surface geometry and on the per-layer surface lists only; they do not
touch the layer order, the lock flag or the supervisor state, so they
are identities on `WlShell` and are not listed. -/

inductive ShellOp
  | lockOp
  | unlockOp
  | dsUnlockOp
  | unbindDS
  | bindDS (client : Nat)
  | bindSaver (client : Nat)
  | unbindSaver
  | sigchldOp (time newClient : Nat)
  | saverSigchld
  | setLockSurface (surf : Nat) (resetOk : Bool)
  | lockSurfaceGone
  deriving DecidableEq, Repr

def applyOp : ShellOp → WlShell → WlShell
  | .lockOp, s => lock s
  | .unlockOp, s => unlock s
  | .dsUnlockOp, s => desktop_shell_unlock s
  | .unbindDS, s => unbind_desktop_shell s
  | .bindDS c, s => (bind_desktop_shell c s).1
  | .bindSaver c, s => (bind_screensaver c s).1
  | .unbindSaver, s => unbind_screensaver s
  | .sigchldOp t c, s => (desktop_shell_sigchld t c s).1
  | .saverSigchld, s => handle_screensaver_sigchld s
  | .setLockSurface surf ok, s => desktop_shell_set_lock_surface surf ok s
  | .lockSurfaceGone, s => handle_lock_surface_destroy s

def runOps (ops : List ShellOp) (s : WlShell) : WlShell :=
  ops.foldl (fun st op => applyOp op st) s

/-- A shell state reachable from some `shell_init` by shell operations. -/
def Reachable (s : WlShell) : Prop :=
  ∃ t path dur idle hc ops, s = runOps ops (shell_init t path dur idle hc)

/-- The layer-order invariant: the cursor layer is always linked and,
while locked, the lock layer is linked and panel/toplevel/fullscreen are
not. -/
def LayerInv (s : WlShell) : Prop :=
  LayerId.cursor ∈ s.layers ∧
  (s.locked = true →
    (LayerId.lock ∈ s.layers ∧ LayerId.panel ∉ s.layers ∧
     LayerId.toplevel ∉ s.layers ∧ LayerId.fullscreen ∉ s.layers))

/-! ## struct shell_surface and the role state machine

Surface positions are `GLfloat` in the compositor; they are modelled as
rationals (every value the shell itself computes is rational).  Saved
positions are `int32_t`, captured from the float geometry by C's
truncating float-to-int conversion. -/

inductive ShellSurfaceType
  | SHELL_SURFACE_NONE
  | SHELL_SURFACE_PANEL
  | SHELL_SURFACE_BACKGROUND
  | SHELL_SURFACE_LOCK
  | SHELL_SURFACE_SCREENSAVER
  | SHELL_SURFACE_TOPLEVEL
  | SHELL_SURFACE_TRANSIENT
  | SHELL_SURFACE_FULLSCREEN
  | SHELL_SURFACE_MAXIMIZED
  | SHELL_SURFACE_POPUP
  deriving DecidableEq, Repr

inductive FullscreenMethod
  | METHOD_DEFAULT
  | METHOD_SCALE
  | METHOD_DRIVER
  | METHOD_FILL
  deriving DecidableEq, Repr

/-- A `weston_output`: position and the current mode's size. -/
structure Output where
  x : ℚ
  y : ℚ
  mode_width : ℤ
  mode_height : ℤ
  deriving DecidableEq, Repr

/-- The black backdrop surface allocated for a fullscreen surface
(`create_black_surface`): its configured geometry. -/
structure BlackSurface where
  x : ℚ
  y : ℚ
  width : ℤ
  height : ℤ
  deriving DecidableEq, Repr

/-- `struct shell_surface`, restricted to the fields the role state
machine reads or writes.  The grab-local rotation matrices and the
fullscreen scale matrix hold floating-point products computed by
external `weston_matrix` routines; only their link state is kept here
(the committed rotation matrix is modelled separately for the rotate
grab). -/
structure ShellSurface where
  type : ShellSurfaceType
  x : ℚ
  y : ℚ
  width : ℤ
  height : ℤ
  saved_x : ℤ
  saved_y : ℤ
  saved_position_valid : Bool
  fullscreen_method : FullscreenMethod
  fullscreen_framerate : Nat
  fullscreen_transform_attached : Bool
  black_surface : Option BlackSurface
  fullscreen_output : Option Output
  output : Option Output
  es_output : Option Output
  force_configure : Bool
  in_role_list : Bool
  parent : Option Nat
  popup_x : ℤ
  popup_y : ℤ
  deriving DecidableEq, Repr

/-- C's truncating float/double-to-int conversion (round toward zero). -/
def cTrunc (q : ℚ) : ℤ :=
  if 0 ≤ q then ⌊q⌋ else -⌊-q⌋

/-- `shell_unset_fullscreen`: undo all fullscreen state, destroy the
black backdrop, force a reconfigure and restore the saved position. -/
def shell_unset_fullscreen (s : ShellSurface) : ShellSurface :=
  { s with
    fullscreen_method := .METHOD_DEFAULT
    fullscreen_framerate := 0
    fullscreen_transform_attached := false
    black_surface := none
    fullscreen_output := none
    force_configure := true
    x := (s.saved_x : ℚ)
    y := (s.saved_y : ℚ) }

/-- `reset_shell_surface_type`.  `none` models the `-1` return after
posting the protocol error "cannot reassign surface type"; the surface
is untouched in that case.  `default_output` is
`get_default_output(compositor)`. -/
def reset_shell_surface_type (default_output : Output) (s : ShellSurface) :
    Option ShellSurface :=
  match s.type with
  | .SHELL_SURFACE_FULLSCREEN =>
      some { shell_unset_fullscreen s with type := .SHELL_SURFACE_NONE }
  | .SHELL_SURFACE_MAXIMIZED =>
      some { s with
        output := some default_output
        x := (s.saved_x : ℚ)
        y := (s.saved_y : ℚ)
        type := .SHELL_SURFACE_NONE }
  | .SHELL_SURFACE_PANEL =>
      some { s with in_role_list := false, type := .SHELL_SURFACE_NONE }
  | .SHELL_SURFACE_BACKGROUND =>
      some { s with in_role_list := false, type := .SHELL_SURFACE_NONE }
  | .SHELL_SURFACE_SCREENSAVER => none
  | .SHELL_SURFACE_LOCK => none
  | _ => some { s with type := .SHELL_SURFACE_NONE }

/-- `shell_surface_set_toplevel`.  The boolean is true when the request
aborted with a protocol error. -/
def shell_surface_set_toplevel (default_output : Output) (s : ShellSurface) :
    ShellSurface × Bool :=
  match reset_shell_surface_type default_output s with
  | none => (s, true)
  | some s1 => ({ s1 with type := .SHELL_SURFACE_TOPLEVEL }, false)

/-- `shell_surface_set_transient`.  `parent_pos`/`parent_output` are the
parent surface's geometry and output. -/
def shell_surface_set_transient (default_output : Output)
    (parent_output : Option Output) (parent_x parent_y : ℚ) (x y : ℤ)
    (s : ShellSurface) : ShellSurface × Bool :=
  match reset_shell_surface_type default_output s with
  | none => (s, true)
  | some s1 =>
      ({ s1 with
          output := parent_output
          x := parent_x + (x : ℚ)
          y := parent_y + (y : ℚ)
          type := .SHELL_SURFACE_TRANSIENT }, false)

/-- `shell_surface_set_fullscreen`.  The requested output (or the
default) is assigned to `shsurf->output` *before* the reset runs. -/
def shell_surface_set_fullscreen (default_output : Output)
    (method : FullscreenMethod) (framerate : Nat) (out? : Option Output)
    (s : ShellSurface) : ShellSurface × Bool :=
  let s0 : ShellSurface := { s with output := some (out?.getD default_output) }
  match reset_shell_surface_type default_output s0 with
  | none => (s0, true)
  | some s1 =>
      ({ s1 with
          fullscreen_output := s1.output
          fullscreen_method := method
          fullscreen_framerate := framerate
          type := .SHELL_SURFACE_FULLSCREEN
          saved_x := cTrunc s1.x
          saved_y := cTrunc s1.y
          saved_position_valid := true
          force_configure := s1.es_output.isSome || s1.force_configure },
        false)

/-- `shell_surface_set_maximized`.  The target output is assigned before
the reset; the saved position is captured; a configure event carrying
the output size minus the panel height is sent (event payload not
modelled). -/
def shell_surface_set_maximized (default_output : Output)
    (out? : Option Output) (s : ShellSurface) : ShellSurface × Bool :=
  let s0 : ShellSurface := { s with output := some (out?.getD default_output) }
  match reset_shell_surface_type default_output s0 with
  | none => (s0, true)
  | some s1 =>
      ({ s1 with
          saved_x := cTrunc s1.x
          saved_y := cTrunc s1.y
          saved_position_valid := true
          type := .SHELL_SURFACE_MAXIMIZED }, false)

/-- `shell_surface_set_popup`: assigns the popup role directly — there
is no call to `reset_shell_surface_type` and no error path. -/
def shell_surface_set_popup (parent : Nat) (x y : ℤ) (s : ShellSurface) :
    ShellSurface × Bool :=
  ({ s with
      type := .SHELL_SURFACE_POPUP
      parent := some parent
      popup_x := x
      popup_y := y }, false)

/-- `center_on_output`: `(mode->width - geometry.width) / 2` is C
integer division (truncating), converted to float afterwards. -/
def center_on_output (out : Output) (s : ShellSurface) : ShellSurface :=
  { s with
    x := out.x + ((Int.tdiv (out.mode_width - s.width) 2 : ℤ) : ℚ)
    y := out.y + ((Int.tdiv (out.mode_height - s.height) 2 : ℤ) : ℚ) }

/-- `shell_configure_fullscreen`: centre on the fullscreen output,
allocate the black backdrop if absent and restack it below the surface
(the per-layer surface list is not modelled), then apply the method.
The scale matrix contents are floating-point and are modelled only by
the transform link becoming attached.  A missing `fullscreen_output`
would be a NULL dereference in C; the modelled flows always set it. -/
def shell_configure_fullscreen (s : ShellSurface) : ShellSurface :=
  match s.fullscreen_output with
  | none => s
  | some out =>
      let s1 := center_on_output out s
      let blk : Option BlackSurface :=
        some (BlackSurface.mk out.x out.y out.mode_width out.mode_height)
      let s2 :=
        if s1.black_surface = none then { s1 with black_surface := blk }
        else s1
      match s2.fullscreen_method with
      | .METHOD_SCALE =>
          { s2 with
            fullscreen_transform_attached := true
            x := out.x
            y := out.y }
      | _ => s2

/-- The `configure` hook of `weston_shell`, restricted to the fields of
one shell surface.  `panel_height` abstracts
`get_output_panel_height(shell, surface->output)`;
`weston_surface_assign_output` is external and leaves the modelled
output reference unless the screensaver/maximized override applies. -/
def configure (panel_height : ℤ) (x y : ℚ) (width height : ℤ)
    (s : ShellSurface) : ShellSurface :=
  let s1 : ShellSurface := { s with x := x, y := y, width := width, height := height }
  let s2 :=
    match s1.type with
    | .SHELL_SURFACE_SCREENSAVER =>
        match s1.fullscreen_output with
        | some out => center_on_output out s1
        | none => s1
    | .SHELL_SURFACE_FULLSCREEN => shell_configure_fullscreen s1
    | .SHELL_SURFACE_MAXIMIZED =>
        match s1.es_output with
        | some out => { s1 with x := out.x, y := out.y + (panel_height : ℚ) }
        | none => s1
    | _ => s1
  if s2.es_output.isSome then
    match s2.type with
    | .SHELL_SURFACE_SCREENSAVER => { s2 with es_output := s2.output }
    | .SHELL_SURFACE_MAXIMIZED => { s2 with es_output := s2.output }
    | _ => s2
  else s2

/-! ## The resize grab

Edge bits of `enum wl_shell_surface_resize`: top = 1, bottom = 2,
left = 4, right = 8. -/

def WL_SHELL_SURFACE_RESIZE_TOP : Nat := 1

def WL_SHELL_SURFACE_RESIZE_BOTTOM : Nat := 2

def WL_SHELL_SURFACE_RESIZE_LEFT : Nat := 4

def WL_SHELL_SURFACE_RESIZE_RIGHT : Nat := 8

/-- `struct weston_resize_grab`: the edges and the width/height
snapshot taken at grab start. -/
structure WestonResizeGrab where
  edges : Nat
  width : ℤ
  height : ℤ
  deriving DecidableEq, Repr

/-- What a resize or pointer-grab request can result in.  `noop` means
no grab was installed, no event was sent and no error was posted. -/
inductive ResizeResult
  | noop
  | grabInstalled (g : WestonResizeGrab)
  | noMemError
  deriving DecidableEq, Repr

/-- `weston_surface_resize`: rejects the fullscreen role and malformed
edge sets silently; otherwise installs a grab snapshotting the current
geometry.  The `malloc` failure path (`noMemError`) is never taken in
this model. -/
def weston_surface_resize (s : ShellSurface) (edges : Nat) :
    ShellSurface × ResizeResult :=
  if s.type = .SHELL_SURFACE_FULLSCREEN then (s, .noop)
  else if edges = 0 ∨ edges > 15 ∨ edges &&& 3 = 3 ∨ edges &&& 12 = 12 then
    (s, .noop)
  else (s, .grabInstalled ⟨edges, s.width, s.height⟩)

/-- `shell_surface_resize`, the `wl_shell_surface.resize` request
handler.  `device_checks_ok` abstracts the input-device predicate
(buttons pressed, matching grab time, pointer focus on this surface);
when it is false the request is silently ignored. -/
def shell_surface_resize (device_checks_ok : Bool) (s : ShellSurface)
    (edges : Nat) : ShellSurface × ResizeResult :=
  if s.type = .SHELL_SURFACE_FULLSCREEN then (s, .noop)
  else if ¬ device_checks_ok then (s, .noop)
  else weston_surface_resize s edges

/-- `resize_grab_motion`: the `configure(edges, width, height)` event
sent to the client on pointer motion.  `from_x/from_y` and `to_x/to_y`
are the grab-start and current pointer positions in surface-local
coordinates (`weston_surface_from_global`). -/
def resize_grab_motion (g : WestonResizeGrab)
    (from_x from_y to_x to_y : ℤ) : Nat × ℤ × ℤ :=
  let width :=
    if g.edges &&& WL_SHELL_SURFACE_RESIZE_LEFT ≠ 0 then
      g.width + from_x - to_x
    else if g.edges &&& WL_SHELL_SURFACE_RESIZE_RIGHT ≠ 0 then
      g.width + to_x - from_x
    else g.width
  let height :=
    if g.edges &&& WL_SHELL_SURFACE_RESIZE_TOP ≠ 0 then
      g.height + from_y - to_y
    else if g.edges &&& WL_SHELL_SURFACE_RESIZE_BOTTOM ≠ 0 then
      g.height + to_y - from_y
    else g.height
  (g.edges, width, height)

/-! ## The rotate grab

`struct weston_matrix` entries are floats; the committed rotation
matrix `shsurf->rotation.rotation` only ever holds products of exact
2×2 rotation blocks, modelled here by its four entries as rationals
(entry values produced on the `r > 20` path involve `dx/r` with
`r = sqrtf(..)` and are not tracked — that path leaves the committed
matrix untouched anyway).  The branch predicate `r > 20.0f` on integer
`dx, dy` is exactly `dx² + dy² > 400`. -/

structure Mat2 where
  m00 : ℚ
  m01 : ℚ
  m10 : ℚ
  m11 : ℚ
  deriving DecidableEq, Repr

/-- `weston_matrix_init`: the identity. -/
def weston_matrix_id : Mat2 := ⟨1, 0, 0, 1⟩

/-- The rotate-grab-relevant state of one shell surface: whether
`rotation.transform.link` is linked into the transformation list, and
the committed rotation matrix `rotation.rotation`. -/
structure RotationState where
  transform_attached : Bool
  rotation : Mat2
  deriving DecidableEq, Repr

/-- `rotate_grab_motion`: if the pointer is farther than 20 px from the
stored centre, build the delta rotation and attach the transform (the
transform matrix product is computed by external float matrix routines
and not tracked); otherwise detach the transform and re-initialise both
the committed rotation and the grab's delta rotation to the identity. -/
def rotate_grab_motion (device_x device_y center_x center_y : ℤ)
    (st : RotationState) : RotationState :=
  let dx := device_x - center_x
  let dy := device_y - center_y
  if dx * dx + dy * dy > 400 then
    { st with transform_attached := true }
  else
    { transform_attached := false, rotation := weston_matrix_id }

/-! ## Concrete states used by witnesses and counterexamples -/

/-- A shell as set up by `shell_init` at time 1000 with a configured
screensaver, 300 s configured idle time, and the helper running as
client 1. -/
def sampleShell : WlShell := shell_init 1000 true 60 300 1

/-- A 1920×1080 output at the origin. -/
def sampleOutput : Output := ⟨0, 0, 1920, 1080⟩

/-- A fresh 300×200 shell surface at (100, 200) carrying the given
role, with all other fields as `shell_get_shell_surface` initialises
them. -/
def sampleSurface (t : ShellSurfaceType) : ShellSurface :=
  { type := t
    x := 100
    y := 200
    width := 300
    height := 200
    saved_x := 0
    saved_y := 0
    saved_position_valid := false
    fullscreen_method := .METHOD_DEFAULT
    fullscreen_framerate := 0
    fullscreen_transform_attached := false
    black_surface := none
    fullscreen_output := none
    output := none
    es_output := none
    force_configure := false
    in_role_list := false
    parent := none
    popup_x := 0
    popup_y := 0 }

/-- A committed rotation matrix of a quarter turn. -/
def rotNinety : Mat2 := ⟨0, -1, 1, 0⟩

/-- The observable outcome claimed for the
`set_toplevel; set_fullscreen; (client commits); set_toplevel` cycle:
no request errors, the backdrop exists after the fullscreen configure
and is gone at the end, the final position is the saved position that
`set_fullscreen` captured, and that saved position is the geometry at
entry to fullscreen. -/
def FullscreenCycleOutcome (default_output : Output)
    (method : FullscreenMethod) (framerate : Nat) (out? : Option Output)
    (panel_height : ℤ) (cx cy : ℚ) (cw ch : ℤ) (s : ShellSurface) : Prop :=
  (shell_surface_set_toplevel default_output s).2 = false ∧
  ((shell_surface_set_fullscreen default_output method framerate out?
      (shell_surface_set_toplevel default_output s).1).2 = false ∧
   ((shell_surface_set_toplevel default_output
        (configure panel_height cx cy cw ch
          (shell_surface_set_fullscreen default_output method framerate out?
            (shell_surface_set_toplevel default_output s).1).1)).2 = false ∧
    ((configure panel_height cx cy cw ch
        (shell_surface_set_fullscreen default_output method framerate out?
          (shell_surface_set_toplevel default_output s).1).1).black_surface ≠
        none ∧
     ((shell_surface_set_toplevel default_output
          (configure panel_height cx cy cw ch
            (shell_surface_set_fullscreen default_output method framerate out?
              (shell_surface_set_toplevel default_output s).1).1)).1.black_surface =
          none ∧
      ((shell_surface_set_toplevel default_output
           (configure panel_height cx cy cw ch
             (shell_surface_set_fullscreen default_output method framerate out?
               (shell_surface_set_toplevel default_output s).1).1)).1.x =
          ((shell_surface_set_fullscreen default_output method framerate out?
              (shell_surface_set_toplevel default_output s).1).1.saved_x : ℚ) ∧
       ((shell_surface_set_toplevel default_output
            (configure panel_height cx cy cw ch
              (shell_surface_set_fullscreen default_output method framerate out?
                (shell_surface_set_toplevel default_output s).1).1)).1.y =
           ((shell_surface_set_fullscreen default_output method framerate out?
               (shell_surface_set_toplevel default_output s).1).1.saved_y : ℚ) ∧
        ((shell_surface_set_fullscreen default_output method framerate out?
             (shell_surface_set_toplevel default_output s).1).1.saved_x =
            cTrunc (shell_surface_set_toplevel default_output s).1.x ∧
         (shell_surface_set_fullscreen default_output method framerate out?
             (shell_surface_set_toplevel default_output s).1).1.saved_y =
            cTrunc (shell_surface_set_toplevel default_output s).1.y)))))))

/-! ## Supporting lemmas -/

theorem mem_wlListRemove {α : Type} [DecidableEq α] {x b : α} {l : List α} :
    b ∈ wlListRemove x l ↔ b ∈ l ∧ b ≠ x := by
  simp [wlListRemove]

theorem mem_wlListInsertAfter {α : Type} [DecidableEq α] {x y b : α} {l : List α} :
    b ∈ wlListInsertAfter x y l ↔ b ∈ l ∨ (x ∈ l ∧ b = y) := by
  induction l with
  | nil => simp [wlListInsertAfter]
  | cons a rest ih =>
    by_cases h : a = x
    · subst h
      have he : wlListInsertAfter a y (a :: rest) = a :: y :: rest := by
        simp [wlListInsertAfter]
      rw [he]
      simp only [List.mem_cons]
      tauto
    · have h' : ¬ x = a := fun e => h e.symm
      have he : wlListInsertAfter x y (a :: rest) = a :: wlListInsertAfter x y rest := by
        simp [wlListInsertAfter, h]
      rw [he]
      simp only [List.mem_cons, ih]
      tauto

theorem launch_screensaver_layers (s : WlShell) :
    (launch_screensaver s).layers = s.layers := by
  unfold launch_screensaver
  split_ifs <;> rfl

theorem launch_screensaver_locked (s : WlShell) :
    (launch_screensaver s).locked = s.locked := by
  unfold launch_screensaver
  split_ifs <;> rfl

theorem lock_of_locked (s : WlShell) (h : s.locked = true) : lock s = s := by
  simp [lock, h]

theorem lock_layers (s : WlShell) (h : s.locked = false) :
    (lock s).layers = lock_layers_update s.layers := by
  unfold lock
  rw [if_neg (by simp [h])]
  dsimp only
  split_ifs <;> simp [launch_screensaver_layers]

theorem lock_locked (s : WlShell) (h : s.locked = false) :
    (lock s).locked = true := by
  unfold lock
  rw [if_neg (by simp [h])]
  dsimp only
  split_ifs <;> simp [launch_screensaver_locked]

theorem cursor_mem_lock_layers_update {l : List LayerId}
    (h : LayerId.cursor ∈ l) : LayerId.cursor ∈ lock_layers_update l := by
  unfold lock_layers_update
  rw [mem_wlListInsertAfter]
  exact Or.inl (by simp [mem_wlListRemove, h])

theorem cursor_mem_resume_layers_update {l : List LayerId}
    (h : LayerId.cursor ∈ l) : LayerId.cursor ∈ resume_layers_update l := by
  unfold resume_layers_update
  simp only [mem_wlListInsertAfter]
  exact Or.inl (Or.inl (Or.inl (by simp [mem_wlListRemove, h])))

theorem lock_layers_update_inv {l : List LayerId}
    (h : LayerId.cursor ∈ l) :
    LayerId.lock ∈ lock_layers_update l ∧
    LayerId.panel ∉ lock_layers_update l ∧
    LayerId.toplevel ∉ lock_layers_update l ∧
    LayerId.fullscreen ∉ lock_layers_update l := by
  simp [lock_layers_update, mem_wlListInsertAfter, mem_wlListRemove, h]

/-- State surgery that keeps the layer order and the lock flag keeps the
invariant. -/
theorem layerInv_congr {s t : WlShell} (hl : t.layers = s.layers)
    (hk : t.locked = s.locked) (h : LayerInv s) : LayerInv t := by
  rw [LayerInv, hl, hk]
  exact h

theorem layerInv_resume (s : WlShell) (h : LayerId.cursor ∈ s.layers) :
    LayerInv (resume_desktop s) :=
  ⟨cursor_mem_resume_layers_update h, fun hc => by
    simp [resume_desktop] at hc⟩

/-- One shell operation preserves the layer-order invariant. -/
theorem layerInv_applyOp (op : ShellOp) (s : WlShell) (h : LayerInv s) :
    LayerInv (applyOp op s) := by
  obtain ⟨hcur, hlocked⟩ := h
  cases op with
  | lockOp =>
    show LayerInv (lock s)
    cases hl : s.locked with
    | true => rw [lock_of_locked s hl]; exact ⟨hcur, hlocked⟩
    | false =>
      refine ⟨?_, fun _ => ?_⟩
      · rw [lock_layers s hl]
        exact cursor_mem_lock_layers_update hcur
      · rw [lock_layers s hl]
        exact lock_layers_update_inv hcur
  | unlockOp =>
    show LayerInv (unlock s)
    unfold unlock
    split_ifs with h1 h2 h3
    · exact ⟨hcur, hlocked⟩
    · exact layerInv_resume s hcur
    · exact ⟨hcur, hlocked⟩
    · exact layerInv_congr rfl rfl ⟨hcur, hlocked⟩
  | dsUnlockOp =>
    show LayerInv (desktop_shell_unlock s)
    unfold desktop_shell_unlock
    dsimp only
    split_ifs with h1
    · exact layerInv_resume _ hcur
    · exact layerInv_congr rfl rfl ⟨hcur, hlocked⟩
  | unbindDS =>
    show LayerInv (unbind_desktop_shell s)
    unfold unbind_desktop_shell
    dsimp only
    split_ifs with h1
    · exact layerInv_congr rfl rfl (layerInv_resume s hcur)
    · exact layerInv_congr rfl rfl ⟨hcur, hlocked⟩
  | bindDS c =>
    show LayerInv (bind_desktop_shell c s).1
    unfold bind_desktop_shell
    split_ifs <;> exact layerInv_congr rfl rfl ⟨hcur, hlocked⟩
  | bindSaver c =>
    show LayerInv (bind_screensaver c s).1
    unfold bind_screensaver
    split_ifs <;> exact layerInv_congr rfl rfl ⟨hcur, hlocked⟩
  | unbindSaver =>
    exact layerInv_congr rfl rfl ⟨hcur, hlocked⟩
  | sigchldOp t c =>
    show LayerInv (desktop_shell_sigchld t c s).1
    unfold desktop_shell_sigchld
    dsimp only
    split_ifs <;> exact layerInv_congr rfl rfl ⟨hcur, hlocked⟩
  | saverSigchld =>
    exact layerInv_congr rfl rfl ⟨hcur, hlocked⟩
  | setLockSurface surf ok =>
    show LayerInv (desktop_shell_set_lock_surface surf ok s)
    unfold desktop_shell_set_lock_surface
    dsimp only
    split_ifs <;> exact layerInv_congr rfl rfl ⟨hcur, hlocked⟩
  | lockSurfaceGone =>
    exact layerInv_congr rfl rfl ⟨hcur, hlocked⟩

theorem layerInv_shell_init (t : Nat) (p : Bool) (d oi hc : Nat) :
    LayerInv (shell_init t p d oi hc) := by
  constructor
  · simp [shell_init, initLayers]
  · intro h
    simp [shell_init] at h

theorem layerInv_runOps (ops : List ShellOp) (s : WlShell) (h : LayerInv s) :
    LayerInv (runOps ops s) := by
  induction ops generalizing s with
  | nil => exact h
  | cons op rest ih => exact ih (applyOp op s) (layerInv_applyOp op s h)

theorem layerInv_reachable (s : WlShell) (h : Reachable s) : LayerInv s := by
  obtain ⟨t, p, d, oi, hc, ops, rfl⟩ := h
  exact layerInv_runOps ops _ (layerInv_shell_init t p d oi hc)

theorem cTrunc_intCast (n : ℤ) : cTrunc (n : ℚ) = n := by
  unfold cTrunc
  split_ifs with h
  · simp
  · rw [← Rat.cast_intCast (α := ℚ)] at h
    rw [← Int.cast_neg, Int.floor_intCast, neg_neg]

theorem mem_resume_layers_update {l : List LayerId}
    (h : LayerId.cursor ∈ l) :
    LayerId.panel ∈ resume_layers_update l ∧
    LayerId.toplevel ∈ resume_layers_update l ∧
    LayerId.fullscreen ∈ resume_layers_update l ∧
    LayerId.lock ∉ resume_layers_update l := by
  simp [resume_layers_update, mem_wlListInsertAfter, mem_wlListRemove, h]

/-! ## Claim theorems -/

/-- Claim C2: for every reachable shell state whose global layer order
is the initial one (cursor, fullscreen, panel, toplevel, background),
executing `lock()` followed by the helper's `unlock` request
(`desktop_shell_unlock`) returns the global layer list to exactly its
original order. -/
theorem C2_lock_unlock_restores_layer_order (s : WlShell)
    (hr : Reachable s) (hl : s.layers = initLayers) :
    (desktop_shell_unlock (lock s)).layers = initLayers := by
  have hinv := layerInv_reachable s hr
  have hlf : s.locked = false := by
    cases hlk : s.locked with
    | false => rfl
    | true =>
      have hmem := (hinv.2 hlk).1
      rw [hl] at hmem
      exact absurd hmem (by decide)
  have h1 : (lock s).layers = lock_layers_update initLayers := by
    rw [lock_layers s hlf, hl]
  have h2 : ({ lock s with prepare_event_sent := false } : WlShell).locked = true :=
    lock_locked s hlf
  unfold desktop_shell_unlock
  dsimp only
  rw [if_pos h2]
  show resume_layers_update ({ lock s with prepare_event_sent := false } : WlShell).layers = initLayers
  have h3 : ({ lock s with prepare_event_sent := false } : WlShell).layers =
      lock_layers_update initLayers := h1
  rw [h3]
  decide

/-- Claim C2 witness: the freshly initialised shell is reachable, has
the initial layer order, and `lock` then the helper's `unlock` restores
that order. -/
theorem C2_witness :
    Reachable sampleShell ∧ sampleShell.layers = initLayers ∧
    (desktop_shell_unlock (lock sampleShell)).layers = initLayers :=
  ⟨⟨1000, true, 60, 300, 1, [], rfl⟩, rfl,
    C2_lock_unlock_restores_layer_order sampleShell
      ⟨1000, true, 60, 300, 1, [], rfl⟩ rfl⟩

/-- Claim C3: in every reachable shell state with the locked flag true,
the global layer list contains neither the panel, toplevel nor
fullscreen layer, and it does contain the lock layer; reachability is
closed under every modelled shell operation, so this holds after every
shell operation while locked remains true. -/
theorem C3_locked_layer_invariant (s : WlShell) (hr : Reachable s)
    (hl : s.locked = true) :
    LayerId.lock ∈ s.layers ∧ LayerId.panel ∉ s.layers ∧
    LayerId.toplevel ∉ s.layers ∧ LayerId.fullscreen ∉ s.layers :=
  (layerInv_reachable s hr).2 hl

/-- Claim C3 witness: the state reached by locking the fresh shell is
reachable and locked, and satisfies the invariant. -/
theorem C3_witness :
    Reachable (lock sampleShell) ∧ (lock sampleShell).locked = true ∧
    (LayerId.lock ∈ (lock sampleShell).layers ∧
     LayerId.panel ∉ (lock sampleShell).layers ∧
     LayerId.toplevel ∉ (lock sampleShell).layers ∧
     LayerId.fullscreen ∉ (lock sampleShell).layers) :=
  ⟨⟨1000, true, 60, 300, 1, [.lockOp], rfl⟩, by decide,
    C3_locked_layer_invariant (lock sampleShell)
      ⟨1000, true, 60, 300, 1, [.lockOp], rfl⟩ (by decide)⟩

/-- Claim C10: if the helper's desktop_shell binding resource is
destroyed while the shell is locked, `unbind_desktop_shell` resumes the
desktop — the panel, toplevel and fullscreen layers are back in the
global order, the lock layer is out, the locked flag is cleared — and
clears the `prepare_event_sent` flag (and the binding reference). -/
theorem C10_unbind_desktop_shell_while_locked (s : WlShell)
    (hl : s.locked = true) (hc : LayerId.cursor ∈ s.layers) :
    (unbind_desktop_shell s).locked = false ∧
    (unbind_desktop_shell s).prepare_event_sent = false ∧
    (unbind_desktop_shell s).child_desktop_shell = none ∧
    (unbind_desktop_shell s).layers = resume_layers_update s.layers ∧
    LayerId.panel ∈ (unbind_desktop_shell s).layers ∧
    LayerId.toplevel ∈ (unbind_desktop_shell s).layers ∧
    LayerId.fullscreen ∈ (unbind_desktop_shell s).layers ∧
    LayerId.lock ∉ (unbind_desktop_shell s).layers := by
  obtain ⟨hp, ht, hf, hlk⟩ := mem_resume_layers_update hc
  unfold unbind_desktop_shell
  rw [if_pos hl]
  exact ⟨rfl, rfl, rfl, rfl, hp, ht, hf, hlk⟩

/-- Claim C10 witness: destroying the binding on the locked fresh shell
resumes the desktop and clears the flags. -/
theorem C10_witness :
    (lock sampleShell).locked = true ∧
    LayerId.cursor ∈ (lock sampleShell).layers ∧
    ((unbind_desktop_shell (lock sampleShell)).locked = false ∧
     (unbind_desktop_shell (lock sampleShell)).prepare_event_sent = false ∧
     (unbind_desktop_shell (lock sampleShell)).child_desktop_shell = none ∧
     (unbind_desktop_shell (lock sampleShell)).layers =
        resume_layers_update (lock sampleShell).layers ∧
     LayerId.panel ∈ (unbind_desktop_shell (lock sampleShell)).layers ∧
     LayerId.toplevel ∈ (unbind_desktop_shell (lock sampleShell)).layers ∧
     LayerId.fullscreen ∈ (unbind_desktop_shell (lock sampleShell)).layers ∧
     LayerId.lock ∉ (unbind_desktop_shell (lock sampleShell)).layers) :=
  ⟨by decide, by decide,
    C10_unbind_desktop_shell_while_locked (lock sampleShell)
      (by decide) (by decide)⟩

/-- Claim C4 counterexample: client 2 is not the recorded helper client
(client 1) of the fresh shell, yet its `bind_screensaver` succeeds —
the binding is recorded and no protocol error is posted — because the
screensaver gate only checks that no binding exists yet. -/
theorem C4_counterexample :
    sampleShell.child_client ≠ some 2 ∧
    (bind_screensaver 2 sampleShell).2 = BindOutcome.accepted ∧
    (bind_screensaver 2 sampleShell).1.screensaver_binding = some 2 := by
  refine ⟨by decide, rfl, rfl⟩

/-- Claim C4 as amended: binding desktop_shell is gated on the recorded
helper client — any other client gets a protocol error and the resource
is destroyed, and the helper's bind succeeds; binding the screensaver
protocol is gated only on being first — any client succeeds while no
binding exists, and any further binder gets a protocol error and the
resource is destroyed, regardless of helper identity. -/
theorem C4_privileged_binding_gates (s : WlShell) (c : Nat) :
    (s.child_client ≠ some c →
      bind_desktop_shell c s = (s, .errorDestroyed)) ∧
    (s.child_client = some c →
      bind_desktop_shell c s =
        ({ s with child_desktop_shell := some c }, .accepted)) ∧
    (s.screensaver_binding = none →
      bind_screensaver c s =
        ({ s with screensaver_binding := some c }, .accepted)) ∧
    (s.screensaver_binding ≠ none →
      bind_screensaver c s = (s, .errorDestroyed)) := by
  refine ⟨fun h => ?_, fun h => ?_, fun h => ?_, fun h => ?_⟩ <;>
    simp [bind_desktop_shell, bind_screensaver, h]

/-- Claim C4 witness: the non-helper client 5 is rejected when binding
desktop_shell on the fresh shell. -/
theorem C4_witness :
    sampleShell.child_client ≠ some 5 ∧
    bind_desktop_shell 5 sampleShell = (sampleShell, BindOutcome.errorDestroyed) :=
  ⟨by decide, (C4_privileged_binding_gates sampleShell 5).1 (by decide)⟩

/-- Claim C8: a resize request whose edges are 0, greater than 15,
contain both left and right (bits 4 and 8), or contain both top and
bottom (bits 1 and 2), and any resize request against a fullscreen-role
surface, is a no-op: no grab is installed, no event is sent, no error
is posted, and the surface state is returned unchanged — whatever the
input-device checks say. -/
theorem C8_resize_rejects_are_noops (device_checks_ok : Bool)
    (s : ShellSurface) (edges : Nat)
    (h : edges = 0 ∨ edges > 15 ∨ edges &&& 3 = 3 ∨ edges &&& 12 = 12 ∨
         s.type = .SHELL_SURFACE_FULLSCREEN) :
    shell_surface_resize device_checks_ok s edges = (s, ResizeResult.noop) := by
  unfold shell_surface_resize weston_surface_resize
  by_cases hf : s.type = .SHELL_SURFACE_FULLSCREEN
  · simp [hf]
  · have he : edges = 0 ∨ edges > 15 ∨ edges &&& 3 = 3 ∨ edges &&& 12 = 12 := by
      rcases h with h | h | h | h | h
      · exact Or.inl h
      · exact Or.inr (Or.inl h)
      · exact Or.inr (Or.inr (Or.inl h))
      · exact Or.inr (Or.inr (Or.inr h))
      · exact absurd h hf
    simp [hf, he]

/-- Claim C8 witness: edges 3 (top and bottom together) on a toplevel
surface with the device checks passing yields a no-op. -/
theorem C8_witness :
    shell_surface_resize true (sampleSurface .SHELL_SURFACE_TOPLEVEL) 3 =
      (sampleSurface .SHELL_SURFACE_TOPLEVEL, ResizeResult.noop) :=
  C8_resize_rejects_are_noops true (sampleSurface .SHELL_SURFACE_TOPLEVEL) 3
    (by decide)

/-- Claim C9 counterexample: a rotate-grab motion with the pointer
exactly on the stored centre detaches the transform as claimed, but the
committed rotation matrix is *not* unchanged — a committed quarter-turn
is reset to the identity. -/
theorem C9_counterexample :
    (rotate_grab_motion 500 400 500 400 ⟨true, rotNinety⟩).transform_attached
        = false ∧
    (rotate_grab_motion 500 400 500 400 ⟨true, rotNinety⟩).rotation ≠
        rotNinety := by
  refine ⟨rfl, by decide⟩

/-- Claim C9 as amended: for every rotate-grab motion event in which
the pointer lies within 20 pixels of the stored surface centre, no
rotation transform is applied (the transform link is detached) and the
surface's committed rotation matrix is reset to the identity. -/
theorem C9_rotate_near_center (device_x device_y center_x center_y : ℤ)
    (st : RotationState)
    (h : (device_x - center_x) * (device_x - center_x) +
         (device_y - center_y) * (device_y - center_y) ≤ 400) :
    rotate_grab_motion device_x device_y center_x center_y st =
      { transform_attached := false, rotation := weston_matrix_id } := by
  unfold rotate_grab_motion
  dsimp only
  rw [if_neg (not_lt.mpr h)]

/-- Claim C9 witness: a motion 10 px right and 5 px below the centre
(r² = 125 ≤ 400) detaches the transform and resets the committed
rotation. -/
theorem C9_witness :
    (510 - 500) * (510 - 500) + (405 - 400) * (405 - 400) ≤ (400 : ℤ) ∧
    rotate_grab_motion 510 405 500 400 ⟨true, rotNinety⟩ =
      { transform_attached := false, rotation := weston_matrix_id } :=
  ⟨by decide, C9_rotate_near_center 510 405 500 400 ⟨true, rotNinety⟩ (by decide)⟩

theorem desktop_shell_sigchld_deathstamp (s : WlShell) (t c : Nat) :
    (desktop_shell_sigchld t c s).1.deathstamp =
      (if u32sub t s.deathstamp > 30000 then t % 2 ^ 32 else s.deathstamp) := by
  unfold desktop_shell_sigchld
  dsimp only
  split_ifs <;> rfl

theorem desktop_shell_sigchld_deathcount (s : WlShell) (t c : Nat) :
    (desktop_shell_sigchld t c s).1.deathcount =
      ((if u32sub t s.deathstamp > 30000 then 0 else s.deathcount) + 1) % 2 ^ 32 := by
  unfold desktop_shell_sigchld
  dsimp only
  split_ifs <;> rfl

theorem desktop_shell_sigchld_respawned (s : WlShell) (t c : Nat) :
    (desktop_shell_sigchld t c s).2 = true ↔
      (desktop_shell_sigchld t c s).1.deathcount ≤ 5 := by
  unfold desktop_shell_sigchld
  dsimp only
  split_ifs with h1 h2 h3 <;> simp_all

/-- Claim C5: at each helper death, if more than 30 s (in wrapped
uint32 milliseconds) have elapsed since the recorded window start, the
window timestamp is reset to now and the counter to zero; the counter
is then incremented; the helper is respawned exactly when the counter
has not exceeded 5, and once the counter has exceeded 5, any further
death still within 30 s of the (unchanged) window start is again not
respawned.  (The `unsigned` counter wraps at 2³²; the no-further-respawn
clause assumes the next increment does not wrap.) -/
theorem C5_helper_respawn_policy (s : WlShell) (t c : Nat) :
    ((desktop_shell_sigchld t c s).1.deathstamp =
       (if u32sub t s.deathstamp > 30000 then t % 2 ^ 32 else s.deathstamp)) ∧
    ((desktop_shell_sigchld t c s).1.deathcount =
       ((if u32sub t s.deathstamp > 30000 then 0 else s.deathcount) + 1) % 2 ^ 32) ∧
    ((desktop_shell_sigchld t c s).2 = true ↔
       (desktop_shell_sigchld t c s).1.deathcount ≤ 5) ∧
    (∀ t2 c2, (desktop_shell_sigchld t c s).2 = false →
       u32sub t2 (desktop_shell_sigchld t c s).1.deathstamp ≤ 30000 →
       (desktop_shell_sigchld t c s).1.deathcount + 1 < 2 ^ 32 →
       (desktop_shell_sigchld t2 c2 (desktop_shell_sigchld t c s).1).2 = false) := by
  refine ⟨desktop_shell_sigchld_deathstamp s t c,
          desktop_shell_sigchld_deathcount s t c, desktop_shell_sigchld_respawned s t c,
          fun t2 c2 hf hwin hnow => ?_⟩
  have hgt : (desktop_shell_sigchld t c s).1.deathcount > 5 := by
    by_contra hle
    have := (desktop_shell_sigchld_respawned s t c).mpr (by omega)
    rw [hf] at this
    cases this
  have h2 : (desktop_shell_sigchld t2 c2 (desktop_shell_sigchld t c s).1).1.deathcount =
      (desktop_shell_sigchld t c s).1.deathcount + 1 := by
    rw [desktop_shell_sigchld_deathcount]
    rw [if_neg (by omega)]
    exact Nat.mod_eq_of_lt hnow
  cases hb : (desktop_shell_sigchld t2 c2 (desktop_shell_sigchld t c s).1).2 with
  | false => rfl
  | true =>
    have := (desktop_shell_sigchld_respawned _ t2 c2).mp hb
    rw [h2] at this
    omega

/-- Claim C5 witness: a death at time 40000 against window start 1000
(39000 ms elapsed) resets the window, the counter becomes 1, and the
helper is respawned. -/
theorem C5_witness :
    ((desktop_shell_sigchld 40000 7 sampleShell).1.deathstamp =
       (if u32sub 40000 sampleShell.deathstamp > 30000 then 40000 % 2 ^ 32
        else sampleShell.deathstamp)) ∧
    ((desktop_shell_sigchld 40000 7 sampleShell).1.deathcount =
       ((if u32sub 40000 sampleShell.deathstamp > 30000 then 0
         else sampleShell.deathcount) + 1) % 2 ^ 32) ∧
    ((desktop_shell_sigchld 40000 7 sampleShell).2 = true ↔
       (desktop_shell_sigchld 40000 7 sampleShell).1.deathcount ≤ 5) ∧
    (∀ t2 c2, (desktop_shell_sigchld 40000 7 sampleShell).2 = false →
       u32sub t2 (desktop_shell_sigchld 40000 7 sampleShell).1.deathstamp ≤ 30000 →
       (desktop_shell_sigchld 40000 7 sampleShell).1.deathcount + 1 < 2 ^ 32 →
       (desktop_shell_sigchld t2 c2 (desktop_shell_sigchld 40000 7 sampleShell).1).2
         = false) :=
  C5_helper_respawn_policy sampleShell 40000 7

theorem weston_surface_resize_installed (s : ShellSurface) (edges : Nat)
    (g : WestonResizeGrab)
    (h : (weston_surface_resize s edges).2 = ResizeResult.grabInstalled g) :
    g = ⟨edges, s.width, s.height⟩ ∧ edges ≠ 0 ∧ edges ≤ 15 ∧
    edges &&& 3 ≠ 3 ∧ edges &&& 12 ≠ 12 := by
  unfold weston_surface_resize at h
  split_ifs at h with h1 h2
  push_neg at h2
  obtain ⟨h0, h15, h3, h12⟩ := h2
  simp only [ResizeResult.grabInstalled.injEq] at h
  exact ⟨h.symm, h0, by omega, h3, h12⟩

/-- Claim C7: for every motion event of an installed resize grab, the
`configure` event carries the grab's edges; its width is the initial
width plus the surface-local delta (grab-start minus current pointer)
when the left edge is active, the initial width minus that delta when
the right edge is active, and the unchanged initial width when neither
is active; the height is derived the same way from the top and bottom
edges. -/
theorem C7_resize_motion_event (s : ShellSurface) (edges : Nat)
    (g : WestonResizeGrab)
    (hinst : (weston_surface_resize s edges).2 = ResizeResult.grabInstalled g)
    (from_x from_y to_x to_y : ℤ) :
    (resize_grab_motion g from_x from_y to_x to_y).1 = g.edges ∧
    (g.edges &&& WL_SHELL_SURFACE_RESIZE_LEFT ≠ 0 →
      (resize_grab_motion g from_x from_y to_x to_y).2.1 =
        g.width + (from_x - to_x)) ∧
    (g.edges &&& WL_SHELL_SURFACE_RESIZE_RIGHT ≠ 0 →
      (resize_grab_motion g from_x from_y to_x to_y).2.1 =
        g.width - (from_x - to_x)) ∧
    (g.edges &&& WL_SHELL_SURFACE_RESIZE_LEFT = 0 →
      g.edges &&& WL_SHELL_SURFACE_RESIZE_RIGHT = 0 →
      (resize_grab_motion g from_x from_y to_x to_y).2.1 = g.width) ∧
    (g.edges &&& WL_SHELL_SURFACE_RESIZE_TOP ≠ 0 →
      (resize_grab_motion g from_x from_y to_x to_y).2.2 =
        g.height + (from_y - to_y)) ∧
    (g.edges &&& WL_SHELL_SURFACE_RESIZE_BOTTOM ≠ 0 →
      (resize_grab_motion g from_x from_y to_x to_y).2.2 =
        g.height - (from_y - to_y)) ∧
    (g.edges &&& WL_SHELL_SURFACE_RESIZE_TOP = 0 →
      g.edges &&& WL_SHELL_SURFACE_RESIZE_BOTTOM = 0 →
      (resize_grab_motion g from_x from_y to_x to_y).2.2 = g.height) := by
  obtain ⟨hg, h0, h15, h3, h12⟩ :=
    weston_surface_resize_installed s edges g hinst
  subst hg
  interval_cases edges
  · exact absurd rfl h0
  · have hev : resize_grab_motion ⟨1, s.width, s.height⟩ from_x from_y to_x to_y =
        (1, s.width, s.height + from_y - to_y) := by
      unfold resize_grab_motion
      simp only [WL_SHELL_SURFACE_RESIZE_TOP, WL_SHELL_SURFACE_RESIZE_BOTTOM,
        WL_SHELL_SURFACE_RESIZE_LEFT, WL_SHELL_SURFACE_RESIZE_RIGHT]
      rw [if_neg (by decide : ¬((1 : Nat) &&& 4 ≠ 0)),
        if_neg (by decide : ¬((1 : Nat) &&& 8 ≠ 0)),
        if_pos (by decide : (1 : Nat) &&& 1 ≠ 0)]
    rw [hev]
    exact ⟨rfl,
      fun h => absurd (by decide : (1 : Nat) &&& WL_SHELL_SURFACE_RESIZE_LEFT = 0) h,
      fun h => absurd (by decide : (1 : Nat) &&& WL_SHELL_SURFACE_RESIZE_RIGHT = 0) h,
      fun _ _ => rfl,
      fun _ => by show s.height + from_y - to_y = s.height + (from_y - to_y); ring,
      fun h => absurd (by decide : (1 : Nat) &&& WL_SHELL_SURFACE_RESIZE_BOTTOM = 0) h,
      fun h1 _ => absurd h1 (by decide : ¬((1 : Nat) &&& WL_SHELL_SURFACE_RESIZE_TOP = 0))⟩
  · have hev : resize_grab_motion ⟨2, s.width, s.height⟩ from_x from_y to_x to_y =
        (2, s.width, s.height + to_y - from_y) := by
      unfold resize_grab_motion
      simp only [WL_SHELL_SURFACE_RESIZE_TOP, WL_SHELL_SURFACE_RESIZE_BOTTOM,
        WL_SHELL_SURFACE_RESIZE_LEFT, WL_SHELL_SURFACE_RESIZE_RIGHT]
      rw [if_neg (by decide : ¬((2 : Nat) &&& 4 ≠ 0)),
        if_neg (by decide : ¬((2 : Nat) &&& 8 ≠ 0)),
        if_neg (by decide : ¬((2 : Nat) &&& 1 ≠ 0)),
        if_pos (by decide : (2 : Nat) &&& 2 ≠ 0)]
    rw [hev]
    exact ⟨rfl,
      fun h => absurd (by decide : (2 : Nat) &&& WL_SHELL_SURFACE_RESIZE_LEFT = 0) h,
      fun h => absurd (by decide : (2 : Nat) &&& WL_SHELL_SURFACE_RESIZE_RIGHT = 0) h,
      fun _ _ => rfl,
      fun h => absurd (by decide : (2 : Nat) &&& WL_SHELL_SURFACE_RESIZE_TOP = 0) h,
      fun _ => by show s.height + to_y - from_y = s.height - (from_y - to_y); ring,
      fun _ h2 => absurd h2 (by decide : ¬((2 : Nat) &&& WL_SHELL_SURFACE_RESIZE_BOTTOM = 0))⟩
  · exact absurd (by decide) h3
  · have hev : resize_grab_motion ⟨4, s.width, s.height⟩ from_x from_y to_x to_y =
        (4, s.width + from_x - to_x, s.height) := by
      unfold resize_grab_motion
      simp only [WL_SHELL_SURFACE_RESIZE_TOP, WL_SHELL_SURFACE_RESIZE_BOTTOM,
        WL_SHELL_SURFACE_RESIZE_LEFT, WL_SHELL_SURFACE_RESIZE_RIGHT]
      rw [if_pos (by decide : (4 : Nat) &&& 4 ≠ 0),
        if_neg (by decide : ¬((4 : Nat) &&& 1 ≠ 0)),
        if_neg (by decide : ¬((4 : Nat) &&& 2 ≠ 0))]
    rw [hev]
    exact ⟨rfl,
      fun _ => by show s.width + from_x - to_x = s.width + (from_x - to_x); ring,
      fun h => absurd (by decide : (4 : Nat) &&& WL_SHELL_SURFACE_RESIZE_RIGHT = 0) h,
      fun h1 _ => absurd h1 (by decide : ¬((4 : Nat) &&& WL_SHELL_SURFACE_RESIZE_LEFT = 0)),
      fun h => absurd (by decide : (4 : Nat) &&& WL_SHELL_SURFACE_RESIZE_TOP = 0) h,
      fun h => absurd (by decide : (4 : Nat) &&& WL_SHELL_SURFACE_RESIZE_BOTTOM = 0) h,
      fun _ _ => rfl⟩
  · have hev : resize_grab_motion ⟨5, s.width, s.height⟩ from_x from_y to_x to_y =
        (5, s.width + from_x - to_x, s.height + from_y - to_y) := by
      unfold resize_grab_motion
      simp only [WL_SHELL_SURFACE_RESIZE_TOP, WL_SHELL_SURFACE_RESIZE_BOTTOM,
        WL_SHELL_SURFACE_RESIZE_LEFT, WL_SHELL_SURFACE_RESIZE_RIGHT]
      rw [if_pos (by decide : (5 : Nat) &&& 4 ≠ 0),
        if_pos (by decide : (5 : Nat) &&& 1 ≠ 0)]
    rw [hev]
    exact ⟨rfl,
      fun _ => by show s.width + from_x - to_x = s.width + (from_x - to_x); ring,
      fun h => absurd (by decide : (5 : Nat) &&& WL_SHELL_SURFACE_RESIZE_RIGHT = 0) h,
      fun h1 _ => absurd h1 (by decide : ¬((5 : Nat) &&& WL_SHELL_SURFACE_RESIZE_LEFT = 0)),
      fun _ => by show s.height + from_y - to_y = s.height + (from_y - to_y); ring,
      fun h => absurd (by decide : (5 : Nat) &&& WL_SHELL_SURFACE_RESIZE_BOTTOM = 0) h,
      fun h1 _ => absurd h1 (by decide : ¬((5 : Nat) &&& WL_SHELL_SURFACE_RESIZE_TOP = 0))⟩
  · have hev : resize_grab_motion ⟨6, s.width, s.height⟩ from_x from_y to_x to_y =
        (6, s.width + from_x - to_x, s.height + to_y - from_y) := by
      unfold resize_grab_motion
      simp only [WL_SHELL_SURFACE_RESIZE_TOP, WL_SHELL_SURFACE_RESIZE_BOTTOM,
        WL_SHELL_SURFACE_RESIZE_LEFT, WL_SHELL_SURFACE_RESIZE_RIGHT]
      rw [if_pos (by decide : (6 : Nat) &&& 4 ≠ 0),
        if_neg (by decide : ¬((6 : Nat) &&& 1 ≠ 0)),
        if_pos (by decide : (6 : Nat) &&& 2 ≠ 0)]
    rw [hev]
    exact ⟨rfl,
      fun _ => by show s.width + from_x - to_x = s.width + (from_x - to_x); ring,
      fun h => absurd (by decide : (6 : Nat) &&& WL_SHELL_SURFACE_RESIZE_RIGHT = 0) h,
      fun h1 _ => absurd h1 (by decide : ¬((6 : Nat) &&& WL_SHELL_SURFACE_RESIZE_LEFT = 0)),
      fun h => absurd (by decide : (6 : Nat) &&& WL_SHELL_SURFACE_RESIZE_TOP = 0) h,
      fun _ => by show s.height + to_y - from_y = s.height - (from_y - to_y); ring,
      fun _ h2 => absurd h2 (by decide : ¬((6 : Nat) &&& WL_SHELL_SURFACE_RESIZE_BOTTOM = 0))⟩
  · exact absurd (by decide) h3
  · have hev : resize_grab_motion ⟨8, s.width, s.height⟩ from_x from_y to_x to_y =
        (8, s.width + to_x - from_x, s.height) := by
      unfold resize_grab_motion
      simp only [WL_SHELL_SURFACE_RESIZE_TOP, WL_SHELL_SURFACE_RESIZE_BOTTOM,
        WL_SHELL_SURFACE_RESIZE_LEFT, WL_SHELL_SURFACE_RESIZE_RIGHT]
      rw [if_neg (by decide : ¬((8 : Nat) &&& 4 ≠ 0)),
        if_pos (by decide : (8 : Nat) &&& 8 ≠ 0),
        if_neg (by decide : ¬((8 : Nat) &&& 1 ≠ 0)),
        if_neg (by decide : ¬((8 : Nat) &&& 2 ≠ 0))]
    rw [hev]
    exact ⟨rfl,
      fun h => absurd (by decide : (8 : Nat) &&& WL_SHELL_SURFACE_RESIZE_LEFT = 0) h,
      fun _ => by show s.width + to_x - from_x = s.width - (from_x - to_x); ring,
      fun _ h2 => absurd h2 (by decide : ¬((8 : Nat) &&& WL_SHELL_SURFACE_RESIZE_RIGHT = 0)),
      fun h => absurd (by decide : (8 : Nat) &&& WL_SHELL_SURFACE_RESIZE_TOP = 0) h,
      fun h => absurd (by decide : (8 : Nat) &&& WL_SHELL_SURFACE_RESIZE_BOTTOM = 0) h,
      fun _ _ => rfl⟩
  · have hev : resize_grab_motion ⟨9, s.width, s.height⟩ from_x from_y to_x to_y =
        (9, s.width + to_x - from_x, s.height + from_y - to_y) := by
      unfold resize_grab_motion
      simp only [WL_SHELL_SURFACE_RESIZE_TOP, WL_SHELL_SURFACE_RESIZE_BOTTOM,
        WL_SHELL_SURFACE_RESIZE_LEFT, WL_SHELL_SURFACE_RESIZE_RIGHT]
      rw [if_neg (by decide : ¬((9 : Nat) &&& 4 ≠ 0)),
        if_pos (by decide : (9 : Nat) &&& 8 ≠ 0),
        if_pos (by decide : (9 : Nat) &&& 1 ≠ 0)]
    rw [hev]
    exact ⟨rfl,
      fun h => absurd (by decide : (9 : Nat) &&& WL_SHELL_SURFACE_RESIZE_LEFT = 0) h,
      fun _ => by show s.width + to_x - from_x = s.width - (from_x - to_x); ring,
      fun _ h2 => absurd h2 (by decide : ¬((9 : Nat) &&& WL_SHELL_SURFACE_RESIZE_RIGHT = 0)),
      fun _ => by show s.height + from_y - to_y = s.height + (from_y - to_y); ring,
      fun h => absurd (by decide : (9 : Nat) &&& WL_SHELL_SURFACE_RESIZE_BOTTOM = 0) h,
      fun h1 _ => absurd h1 (by decide : ¬((9 : Nat) &&& WL_SHELL_SURFACE_RESIZE_TOP = 0))⟩
  · have hev : resize_grab_motion ⟨10, s.width, s.height⟩ from_x from_y to_x to_y =
        (10, s.width + to_x - from_x, s.height + to_y - from_y) := by
      unfold resize_grab_motion
      simp only [WL_SHELL_SURFACE_RESIZE_TOP, WL_SHELL_SURFACE_RESIZE_BOTTOM,
        WL_SHELL_SURFACE_RESIZE_LEFT, WL_SHELL_SURFACE_RESIZE_RIGHT]
      rw [if_neg (by decide : ¬((10 : Nat) &&& 4 ≠ 0)),
        if_pos (by decide : (10 : Nat) &&& 8 ≠ 0),
        if_neg (by decide : ¬((10 : Nat) &&& 1 ≠ 0)),
        if_pos (by decide : (10 : Nat) &&& 2 ≠ 0)]
    rw [hev]
    exact ⟨rfl,
      fun h => absurd (by decide : (10 : Nat) &&& WL_SHELL_SURFACE_RESIZE_LEFT = 0) h,
      fun _ => by show s.width + to_x - from_x = s.width - (from_x - to_x); ring,
      fun _ h2 => absurd h2 (by decide : ¬((10 : Nat) &&& WL_SHELL_SURFACE_RESIZE_RIGHT = 0)),
      fun h => absurd (by decide : (10 : Nat) &&& WL_SHELL_SURFACE_RESIZE_TOP = 0) h,
      fun _ => by show s.height + to_y - from_y = s.height - (from_y - to_y); ring,
      fun _ h2 => absurd h2 (by decide : ¬((10 : Nat) &&& WL_SHELL_SURFACE_RESIZE_BOTTOM = 0))⟩
  · exact absurd (by decide) h3
  · exact absurd (by decide) h12
  · exact absurd (by decide) h12
  · exact absurd (by decide) h12
  · exact absurd (by decide) h3

/-- Claim C7 witness: a top-left grab (edges 5) over a 300×200 toplevel
surface, with grab-start (50, 60) and pointer now at (30, 40), sends
`configure(5, 320, 220)` — width and height grown by the delta. -/
theorem C7_witness :
    (weston_surface_resize (sampleSurface .SHELL_SURFACE_TOPLEVEL) 5).2 =
      ResizeResult.grabInstalled ⟨5, 300, 200⟩ ∧
    (resize_grab_motion ⟨5, 300, 200⟩ 50 60 30 40).1 = 5 ∧
    (resize_grab_motion ⟨5, 300, 200⟩ 50 60 30 40).2.1 = 320 ∧
    (resize_grab_motion ⟨5, 300, 200⟩ 50 60 30 40).2.2 = 220 := by
  have h := C7_resize_motion_event (sampleSurface .SHELL_SURFACE_TOPLEVEL) 5
      ⟨5, 300, 200⟩ (by decide) 50 60 30 40
  refine ⟨by decide, h.1, ?_, ?_⟩
  · have hw := h.2.1 (by decide)
    simpa using hw
  · have hh := h.2.2.2.2.1 (by decide)
    simpa using hh

/-- Claim C1 counterexample: a shell surface in the lock role accepts
`set_popup` — no protocol error is posted and the role changes to
popup, because `shell_surface_set_popup` never runs the reset
protocol. -/
theorem C1_counterexample :
    (sampleSurface .SHELL_SURFACE_LOCK).type = .SHELL_SURFACE_LOCK ∧
    (shell_surface_set_popup 7 5 6 (sampleSurface .SHELL_SURFACE_LOCK)).2 =
      false ∧
    (shell_surface_set_popup 7 5 6 (sampleSurface .SHELL_SURFACE_LOCK)).1.type =
      .SHELL_SURFACE_POPUP :=
  ⟨rfl, rfl, rfl⟩

/-- Claim C1 as amended: for a shell surface whose role is lock or
screensaver, `set_toplevel`, `set_transient`, `set_fullscreen` and
`set_maximized` run the reset protocol first, fail with the protocol
error "cannot reassign surface type" and leave the role unchanged —
but `set_popup` performs no reset: it succeeds and assigns the popup
role directly, even to lock and screensaver surfaces. -/
theorem C1_amended_reset_protocol (default_output : Output) (s : ShellSurface)
    (h : s.type = .SHELL_SURFACE_LOCK ∨ s.type = .SHELL_SURFACE_SCREENSAVER)
    (method : FullscreenMethod) (framerate : Nat) (out? : Option Output)
    (parent_output : Option Output) (parent_x parent_y : ℚ) (tx ty : ℤ)
    (parent : Nat) (px py : ℤ) :
    ((shell_surface_set_toplevel default_output s).2 = true ∧
     (shell_surface_set_toplevel default_output s).1.type = s.type) ∧
    ((shell_surface_set_transient default_output parent_output parent_x
        parent_y tx ty s).2 = true ∧
     (shell_surface_set_transient default_output parent_output parent_x
        parent_y tx ty s).1.type = s.type) ∧
    ((shell_surface_set_fullscreen default_output method framerate out? s).2 =
        true ∧
     (shell_surface_set_fullscreen default_output method framerate out?
        s).1.type = s.type) ∧
    ((shell_surface_set_maximized default_output out? s).2 = true ∧
     (shell_surface_set_maximized default_output out? s).1.type = s.type) ∧
    ((shell_surface_set_popup parent px py s).2 = false ∧
     (shell_surface_set_popup parent px py s).1.type =
        .SHELL_SURFACE_POPUP) := by
  rcases h with h | h <;>
    simp [shell_surface_set_toplevel, shell_surface_set_transient,
      shell_surface_set_fullscreen, shell_surface_set_maximized,
      shell_surface_set_popup, reset_shell_surface_type, h]

/-- Claim C1 witness: on a lock-role surface the four resetting
transitions fail leaving the role, and `set_popup` succeeds. -/
theorem C1_witness :
    ((shell_surface_set_toplevel sampleOutput
        (sampleSurface .SHELL_SURFACE_LOCK)).2 = true ∧
     (shell_surface_set_toplevel sampleOutput
        (sampleSurface .SHELL_SURFACE_LOCK)).1.type =
        (sampleSurface .SHELL_SURFACE_LOCK).type) ∧
    ((shell_surface_set_transient sampleOutput none 0 0 0 0
        (sampleSurface .SHELL_SURFACE_LOCK)).2 = true ∧
     (shell_surface_set_transient sampleOutput none 0 0 0 0
        (sampleSurface .SHELL_SURFACE_LOCK)).1.type =
        (sampleSurface .SHELL_SURFACE_LOCK).type) ∧
    ((shell_surface_set_fullscreen sampleOutput .METHOD_DEFAULT 0 none
        (sampleSurface .SHELL_SURFACE_LOCK)).2 = true ∧
     (shell_surface_set_fullscreen sampleOutput .METHOD_DEFAULT 0 none
        (sampleSurface .SHELL_SURFACE_LOCK)).1.type =
        (sampleSurface .SHELL_SURFACE_LOCK).type) ∧
    ((shell_surface_set_maximized sampleOutput none
        (sampleSurface .SHELL_SURFACE_LOCK)).2 = true ∧
     (shell_surface_set_maximized sampleOutput none
        (sampleSurface .SHELL_SURFACE_LOCK)).1.type =
        (sampleSurface .SHELL_SURFACE_LOCK).type) ∧
    ((shell_surface_set_popup 7 5 6
        (sampleSurface .SHELL_SURFACE_LOCK)).2 = false ∧
     (shell_surface_set_popup 7 5 6
        (sampleSurface .SHELL_SURFACE_LOCK)).1.type =
        .SHELL_SURFACE_POPUP) :=
  C1_amended_reset_protocol sampleOutput (sampleSurface .SHELL_SURFACE_LOCK)
    (Or.inl rfl) .METHOD_DEFAULT 0 none none 0 0 0 0 7 5 6

theorem shell_surface_set_toplevel_ok (default_output : Output)
    (s : ShellSurface) (h1 : s.type ≠ .SHELL_SURFACE_LOCK)
    (h2 : s.type ≠ .SHELL_SURFACE_SCREENSAVER) :
    (shell_surface_set_toplevel default_output s).2 = false ∧
    (shell_surface_set_toplevel default_output s).1.type =
      .SHELL_SURFACE_TOPLEVEL := by
  unfold shell_surface_set_toplevel reset_shell_surface_type
  cases ht : s.type <;> simp_all

theorem shell_surface_set_fullscreen_toplevel (default_output : Output)
    (method : FullscreenMethod) (framerate : Nat) (out? : Option Output)
    (s1 : ShellSurface) (ht : s1.type = .SHELL_SURFACE_TOPLEVEL) :
    shell_surface_set_fullscreen default_output method framerate out? s1 =
      ({ s1 with
          output := some (out?.getD default_output)
          fullscreen_output := some (out?.getD default_output)
          fullscreen_method := method
          fullscreen_framerate := framerate
          type := .SHELL_SURFACE_FULLSCREEN
          saved_x := cTrunc s1.x
          saved_y := cTrunc s1.y
          saved_position_valid := true
          force_configure := s1.es_output.isSome || s1.force_configure },
        false) := by
  unfold shell_surface_set_fullscreen reset_shell_surface_type
  dsimp only
  rw [ht]

theorem shell_configure_fullscreen_facts (s : ShellSurface) (out : Output)
    (ho : s.fullscreen_output = some out) :
    (shell_configure_fullscreen s).type = s.type ∧
    (shell_configure_fullscreen s).black_surface ≠ none ∧
    (shell_configure_fullscreen s).saved_x = s.saved_x ∧
    (shell_configure_fullscreen s).saved_y = s.saved_y ∧
    (shell_configure_fullscreen s).es_output = s.es_output := by
  unfold shell_configure_fullscreen center_on_output
  rw [ho]
  dsimp only
  split_ifs with hb <;> cases hm : s.fullscreen_method <;> simp_all

theorem configure_of_fullscreen (panel_height : ℤ) (cx cy : ℚ) (cw ch : ℤ)
    (s2 : ShellSurface) (ht : s2.type = .SHELL_SURFACE_FULLSCREEN)
    (out : Output) (ho : s2.fullscreen_output = some out) :
    configure panel_height cx cy cw ch s2 =
      shell_configure_fullscreen
        { s2 with x := cx, y := cy, width := cw, height := ch } := by
  have hf : (shell_configure_fullscreen
      { s2 with
          type := .SHELL_SURFACE_FULLSCREEN
          x := cx
          y := cy
          width := cw
          height := ch }).type = .SHELL_SURFACE_FULLSCREEN :=
    (shell_configure_fullscreen_facts
      { s2 with
          type := .SHELL_SURFACE_FULLSCREEN
          x := cx
          y := cy
          width := cw
          height := ch } out ho).1
  unfold configure
  dsimp only
  rw [ht]
  dsimp only
  rw [hf]
  simp only [ite_self]

theorem configure_fullscreen_tail (panel_height : ℤ) (cx cy : ℚ) (cw ch : ℤ)
    (s2 : ShellSurface) (ht : s2.type = .SHELL_SURFACE_FULLSCREEN)
    (out : Output) (ho : s2.fullscreen_output = some out) :
    (configure panel_height cx cy cw ch s2).type = .SHELL_SURFACE_FULLSCREEN ∧
    (configure panel_height cx cy cw ch s2).black_surface ≠ none ∧
    (configure panel_height cx cy cw ch s2).saved_x = s2.saved_x ∧
    (configure panel_height cx cy cw ch s2).saved_y = s2.saved_y := by
  rw [configure_of_fullscreen panel_height cx cy cw ch s2 ht out ho]
  obtain ⟨f1, f2, f3, f4, f5⟩ :=
    shell_configure_fullscreen_facts
      { s2 with x := cx, y := cy, width := cw, height := ch } out ho
  exact ⟨by rw [f1]; exact ht, f2, f3, f4⟩

theorem shell_surface_set_toplevel_of_fullscreen (default_output : Output)
    (s3 : ShellSurface) (ht : s3.type = .SHELL_SURFACE_FULLSCREEN) :
    shell_surface_set_toplevel default_output s3 =
      ({ shell_unset_fullscreen s3 with type := .SHELL_SURFACE_TOPLEVEL },
        false) := by
  unfold shell_surface_set_toplevel reset_shell_surface_type
  rw [ht]

/-- Claim C6: for every shell surface not in the lock or screensaver
role, the sequence `set_toplevel; set_fullscreen; (client commit runs
the configure hook); set_toplevel` errors nowhere, restores the
surface's position to the saved position captured at entry to
fullscreen, and destroys the fullscreen black backdrop that the
configure hook had allocated, leaving no backdrop allocated. -/
theorem C6_fullscreen_toplevel_cycle (default_output : Output)
    (method : FullscreenMethod) (framerate : Nat) (out? : Option Output)
    (panel_height : ℤ) (cx cy : ℚ) (cw ch : ℤ) (s : ShellSurface)
    (h1 : s.type ≠ .SHELL_SURFACE_LOCK)
    (h2 : s.type ≠ .SHELL_SURFACE_SCREENSAVER) :
    FullscreenCycleOutcome default_output method framerate out? panel_height
      cx cy cw ch s := by
  obtain ⟨ha2, ha1⟩ := shell_surface_set_toplevel_ok default_output s h1 h2
  unfold FullscreenCycleOutcome
  set s1 := (shell_surface_set_toplevel default_output s).1 with hs1
  have hfs := shell_surface_set_fullscreen_toplevel default_output method
    framerate out? s1 ha1
  set B := shell_surface_set_fullscreen default_output method framerate out? s1
    with hBdef
  have hB1 : B.1 = { s1 with
      output := some (out?.getD default_output)
      fullscreen_output := some (out?.getD default_output)
      fullscreen_method := method
      fullscreen_framerate := framerate
      type := .SHELL_SURFACE_FULLSCREEN
      saved_x := cTrunc s1.x
      saved_y := cTrunc s1.y
      saved_position_valid := true
      force_configure := s1.es_output.isSome || s1.force_configure } := by
    rw [hfs]
  have hB2 : B.2 = false := by rw [hfs]
  have htype : B.1.type = .SHELL_SURFACE_FULLSCREEN := by rw [hB1]
  have hfo : B.1.fullscreen_output = some (out?.getD default_output) := by
    rw [hB1]
  obtain ⟨g1, g2, g3, g4⟩ :=
    configure_fullscreen_tail panel_height cx cy cw ch B.1 htype _ hfo
  set C3 := configure panel_height cx cy cw ch B.1 with hC3
  have hlast := shell_surface_set_toplevel_of_fullscreen default_output C3 g1
  refine ⟨ha2, hB2, by rw [hlast], g2, by rw [hlast]; rfl, ?_, ?_,
    by rw [hB1], by rw [hB1]⟩
  · rw [hlast]
    show (C3.saved_x : ℚ) = (B.1.saved_x : ℚ)
    exact congrArg _ g3
  · rw [hlast]
    show (C3.saved_y : ℚ) = (B.1.saved_y : ℚ)
    exact congrArg _ g4

/-- Claim C6 witness: the cycle on a fresh toplevel surface over a
1920×1080 output with the scale method. -/
theorem C6_witness :
    (sampleSurface .SHELL_SURFACE_TOPLEVEL).type ≠ .SHELL_SURFACE_LOCK ∧
    (sampleSurface .SHELL_SURFACE_TOPLEVEL).type ≠ .SHELL_SURFACE_SCREENSAVER ∧
    FullscreenCycleOutcome sampleOutput .METHOD_SCALE 0 none 32 5 6 1024 768
      (sampleSurface .SHELL_SURFACE_TOPLEVEL) :=
  ⟨by decide, by decide,
    C6_fullscreen_toplevel_cycle sampleOutput .METHOD_SCALE 0 none 32 5 6
      1024 768 (sampleSurface .SHELL_SURFACE_TOPLEVEL) (by decide) (by decide)⟩

end Weston
